import Mathlib

/-! Verification of the WAMP session-layer engine from
`autobahn/wamp/protocol.py`: the `Peer` error translator (`define`,
`_message_from_exception`, `_exception_from_message`) and the
`WampProtocol` request-correlation engine (`onOpen`, `onMessage`,
`onClose`, `publish`, `subscribe`, `unsubscribe`).

Embedding conventions: Python dictionaries are association lists with
insertion-order semantics (`dmem`, `dget`, `dinsert`, `derase`);
Twisted deferreds are allocation-numbered handles whose
`callback`/`errback` firings are recorded in an event trace; a raised
Python exception is the error component of an operation's result,
returned together with the state as mutated up to the raise point;
`util.id()` request ids are external inputs and appear as explicit
arguments of the operations. -/

namespace Wamp

/-- Membership test on a Python dict embedded as an association list
(`k in d`). -/
def dmem [BEq κ] (k : κ) (d : List (κ × α)) : Bool :=
  d.any fun p => p.1 == k

/-- Indexing (`d[k]`), `none` when the key is absent. -/
def dget [BEq κ] (k : κ) (d : List (κ × α)) : Option α :=
  (d.find? fun p => p.1 == k).map Prod.snd

/-- Assignment (`d[k] = v`), keeping insertion order like a Python dict. -/
def dinsert [BEq κ] (k : κ) (v : α) (d : List (κ × α)) : List (κ × α) :=
  if dmem k d then d.map fun p => if p.1 == k then (k, v) else p
  else d ++ [(k, v)]

/-- Removal (`del d[k]`, and the removal half of `d.pop(k)`). -/
def derase [BEq κ] (k : κ) (d : List (κ × α)) : List (κ × α) :=
  d.filter fun p => !(p.1 == k)

/-- An instance of the external class `wamp.options.Publish`; its
`__dict__` payload is opaque to the engine and left abstract. -/
structure PublishOptions where
  data : Nat
deriving DecidableEq

/-- An instance of the external class `wamp.options.Subscribe`. -/
structure SubscribeOptions where
  data : Nat
deriving DecidableEq

/-- Embedded Python values, as far as the engine inspects them:
strings, ints, bools, `None`, callables, `wamp.options.Publish`
instances, and other opaque objects. -/
inductive PyObj
| str (s : String)
| int (n : Int)
| bool (b : Bool)
| none
| func (n : Nat)
| pubOpts (o : PublishOptions)
| other (n : Nat)
deriving DecidableEq

/-- `type(x) in (str, unicode)`. -/
def PyObj.isStr : PyObj → Bool
| .str _ => true
| _ => false

/-- `type(x) in [int, long]` (a Python `bool` has type `bool`, not
`int`, so it fails this test). -/
def PyObj.isInt : PyObj → Bool
| .int _ => true
| _ => false

/-- `callable(x)`. -/
def PyObj.isCallable : PyObj → Bool
| .func _ => true
| _ => false

/-- The string carried by a value already known to satisfy `isStr`. -/
def PyObj.strVal : PyObj → String
| .str s => s
| _ => ""

/-- The integer carried by a value already known to satisfy `isInt`. -/
def PyObj.intVal : PyObj → Int
| .int n => n
| _ => 0

/-- The WAMP message constructors from the external
`autobahn.wamp.message` layer that the engine builds or dispatches on,
embedded as a closed sum. -/
inductive Msg
| Publish (request : Int) (topic : String) (args : List PyObj)
    (kwargs : List (String × PyObj)) (opts : Option PublishOptions)
| Subscribe (request : Int) (topic : String) (opts : Option SubscribeOptions)
| Unsubscribe (request : Int) (subscription : Int)
| Published (request : Int) (publication : Int)
| Subscribed (request : Int) (subscription : Int)
| Unsubscribed (request : Int)
| Error (request : Int) (error : String) (args : List PyObj)
    (kwargs : List (String × PyObj))
| other (n : Nat)
deriving DecidableEq

/-- Modelled from the spec: the URI `Pattern` class of the excluded
URI-pattern layer, to the extent the engine uses it —
`Pattern(uri, Pattern.URI_TARGET_HANDLER)` stores the literal URI
(attribute `_uri`), and the method `uri()` returns it. -/
structure Pattern where
  uri : String
  target : Nat
deriving DecidableEq

/-- `Pattern.URI_TARGET_HANDLER`, an opaque tag. -/
def URI_TARGET_HANDLER : Nat := 0

/-- Identity of a Python exception class: `exception.ApplicationError`
or a user-defined class. -/
inductive ClsId
| appError
| user (n : Nat)
deriving DecidableEq

/-- An exception instance as the engine observes it: its class, its
`args` attribute and its `kwargs` attribute, each `none` when the
attribute is absent (`hasattr` returns false). -/
structure Exc where
  cls : ClsId
  args : Option (List PyObj)
  kwargs : Option (List (String × PyObj))
deriving DecidableEq

/-- The ambient Python class environment: for each exception class its
constructor — `none` models the call raising (e.g. `TypeError` on an
incompatible signature) — and its optional self-declared `_wampuris`
pattern list. -/
structure ClsEnv where
  construct : ClsId → List PyObj → List (String × PyObj) → Option Exc
  wampuris : ClsId → Option (List Pattern)

/-- Modelled from the spec: the constructor of
`exception.ApplicationError` (repository code not under `src/`): a
generic application error value carrying the raw URI and the
positional/keyword payload verbatim; the URI is stored first in
`args`, which is how the source reads it back (`exc.args[0]`). -/
def applicationError (uri : String) (args : List PyObj)
    (kwargs : List (String × PyObj)) : Exc :=
  { cls := .appError, args := some (.str uri :: args), kwargs := some kwargs }

/-- The `Peer` error-translator state: the forward map
`_ecls_to_uri_pat` and the reverse map `_uri_to_ecls`. -/
structure Peer where
  ecls_to_uri_pat : List (ClsId × List Pattern)
  uri_to_ecls : List (String × ClsId)
deriving DecidableEq

/-- `Peer.__init__`. -/
def Peer.init : Peer :=
  { ecls_to_uri_pat := [], uri_to_ecls := [] }

/-- `Peer.define(exception, error = None)`; the result is `none` when
the source raises (`AssertionError` from either `assert`, or
`IndexError` indexing an empty `_wampuris` list). -/
def Peer.define (env : ClsEnv) (p : Peer) (exc : ClsId)
    (error : Option String) : Option Peer :=
  match error with
  | Option.none =>
    match env.wampuris exc with
    | some (p0 :: rest) =>
      some { ecls_to_uri_pat := dinsert exc (p0 :: rest) p.ecls_to_uri_pat,
             uri_to_ecls := dinsert p0.uri exc p.uri_to_ecls }
    | some [] => Option.none
    | Option.none => Option.none
  | some err =>
    match env.wampuris exc with
    | some _ => Option.none
    | Option.none =>
      some { ecls_to_uri_pat :=
               dinsert exc [Pattern.mk err URI_TARGET_HANDLER] p.ecls_to_uri_pat,
             uri_to_ecls := dinsert err exc p.uri_to_ecls }

/-- `Peer._message_from_exception(request, exc)`; the result is `none`
exactly on the raise paths of the source (reading `exc.args[0]` or
`exc.kwargs` of a malformed `ApplicationError` value, a non-string URI
slot, or indexing an empty registered pattern list). -/
def Peer.message_from_exception (p : Peer) (request : Int) (exc : Exc) :
    Option Msg :=
  if exc.cls == ClsId.appError then
    match exc.args, exc.kwargs with
    | some (PyObj.str uri :: rest), some kw =>
      some (Msg.Error request uri rest kw)
    | _, _ => Option.none
  else
    let errorU : Option String :=
      match dget exc.cls p.ecls_to_uri_pat with
      | some pats =>
        match pats with
        | p0 :: _ => some p0.uri
        | [] => Option.none
      | Option.none => some "wamp.error.runtime_error"
    match errorU with
    | Option.none => Option.none
    | some error =>
      match exc.args with
      | some as =>
        match exc.kwargs with
        | some kw => some (Msg.Error request error as kw)
        | Option.none => some (Msg.Error request error as [])
      | Option.none => some (Msg.Error request error [] [])

/-- Body of `Peer._exception_from_message` on an Error message with
fields `uri`, `margs`, `mkwargs`. Python truthiness: an empty
list/dict is falsy, and splatting an empty `*args`/`**kwargs` is the
same call as omitting the argument. -/
def Peer.exception_from_error (env : ClsEnv) (p : Peer) (uri : String)
    (margs : List PyObj) (mkwargs : List (String × PyObj)) : Exc :=
  let exc : Option Exc :=
    match dget uri p.uri_to_ecls with
    | some ecls =>
      if mkwargs ≠ [] then
        if margs ≠ [] then env.construct ecls margs mkwargs
        else env.construct ecls [] mkwargs
      else
        if margs ≠ [] then env.construct ecls margs []
        else env.construct ecls [] []
    | Option.none => Option.none
  match exc with
  | some e => e
  | Option.none =>
    if mkwargs ≠ [] then
      if margs ≠ [] then applicationError uri margs mkwargs
      else applicationError uri [] mkwargs
    else
      if margs ≠ [] then applicationError uri margs []
      else applicationError uri [] []

/-- `Peer._exception_from_message(msg)`, defined on Error messages. -/
def Peer.exception_from_message (env : ClsEnv) (p : Peer) :
    Msg → Option Exc
| Msg.Error _ uri margs mkwargs =>
    some (Peer.exception_from_error env p uri margs mkwargs)
| _ => Option.none

/-- The transport at the external `IMessageTransport` boundary:
`failing` embeds whether its `send` raises. -/
structure Transport where
  failing : Bool
deriving DecidableEq

/-- A `callback`/`errback` firing on a deferred handle. -/
inductive DeferredAction
| callback (d : Nat) (v : PyObj)
| errback (d : Nat) (e : Exc)
deriving DecidableEq

/-- The raised Python exceptions observable from the engine. -/
inductive PyErr
| protocolError (msg : String)
| assertionError
| transportLost
| attributeError
| sendFailed
deriving DecidableEq

/-- The `WampProtocol` instance state: the inherited `Peer` maps, the
transport handle, the six request ledgers, the subscriptions and
registrations tables, plus the embedding's deferred-allocation
counter, event trace of deferred firings, and trace of messages passed
to `transport.send`. -/
structure State where
  peer : Peer
  transport : Option Transport
  publish_reqs : List (Int × Nat)
  subscribe_reqs : List (Int × (Nat × PyObj))
  unsubscribe_reqs : List (Int × (Nat × Int))
  call_reqs : List (Int × Nat)
  register_reqs : List (Int × Nat)
  unregister_reqs : List (Int × Nat)
  subscriptions : List (Int × PyObj)
  registrations : List (Int × Nat)
  nextDeferred : Nat
  events : List DeferredAction
  outbox : List Msg
deriving DecidableEq

/-- `WampProtocol.__init__`. -/
def WampProtocol.init : State :=
  { peer := Peer.init, transport := Option.none,
    publish_reqs := [], subscribe_reqs := [], unsubscribe_reqs := [],
    call_reqs := [], register_reqs := [], unregister_reqs := [],
    subscriptions := [], registrations := [],
    nextDeferred := 0, events := [], outbox := [] }

/-- `WampProtocol.onOpen(transport)`. -/
def WampProtocol.onOpen (s : State) (t : Transport) : State :=
  { s with transport := some t }

/-- `WampProtocol.onClose()`. -/
def WampProtocol.onClose (s : State) : State :=
  { s with transport := Option.none }

/-- `WampProtocol.onMessage(msg)`. A ledger is probed with `in` and
read/popped at the same key, embedded as one `dget` match. In the
Error branch the source pops the raw stored value into `d`: for the
publish ledger that is the deferred, for the subscribe ledger the
deferred after tuple destructuring, but for the unsubscribe ledger it
is the whole `(deferred, subscription)` pair, which is truthy, so
`d.errback(...)` raises `AttributeError` after the pop has already
removed the entry. -/
def WampProtocol.onMessage (env : ClsEnv) (s : State) (msg : Msg) :
    Except PyErr Bool × State :=
  match msg with
  | Msg.Published req pub =>
    match dget req s.publish_reqs with
    | some d =>
      (.ok true, { s with events := s.events ++ [.callback d (.int pub)] })
    | Option.none =>
      (.error (.protocolError
        ("PUBLISHED received for non-pending request ID " ++ toString req)), s)
  | Msg.Subscribed req sub =>
    match dget req s.subscribe_reqs with
    | some (d, handler) =>
      (.ok true, { s with
        subscriptions := dinsert sub handler s.subscriptions,
        events := s.events ++ [.callback d (.int sub)] })
    | Option.none =>
      (.error (.protocolError
        ("SUBSCRIBED received for non-pending request ID " ++ toString req)), s)
  | Msg.Unsubscribed req =>
    match dget req s.unsubscribe_reqs with
    | some (d, subscription) =>
      let s1 := if dmem subscription s.subscriptions
        then { s with subscriptions := derase subscription s.subscriptions }
        else s
      (.ok true, { s1 with events := s1.events ++ [.callback d .none] })
    | Option.none =>
      (.error (.protocolError
        ("UNSUBSCRIBED received for non-pending request ID " ++ toString req)), s)
  | Msg.Error req uri margs mkwargs =>
    match dget req s.publish_reqs with
    | some d =>
      let s1 := { s with publish_reqs := derase req s.publish_reqs }
      (.ok true, { s1 with events := s1.events ++
        [.errback d (Peer.exception_from_error env s.peer uri margs mkwargs)] })
    | Option.none =>
      match dget req s.subscribe_reqs with
      | some (d, _) =>
        let s1 := { s with subscribe_reqs := derase req s.subscribe_reqs }
        (.ok true, { s1 with events := s1.events ++
          [.errback d (Peer.exception_from_error env s.peer uri margs mkwargs)] })
      | Option.none =>
        match dget req s.unsubscribe_reqs with
        | some _ =>
          (.error .attributeError,
           { s with unsubscribe_reqs := derase req s.unsubscribe_reqs })
        | Option.none =>
          (.error (.protocolError
            ("ERROR received for non-pending request ID " ++ toString req)), s)
  | _ => (.ok false, s)

/-- `WampProtocol.publish(topic, *args, **kwargs)`; `request` is the
value returned by the external `util.id()`. On success the result is
the handle of the freshly allocated deferred that the source returns. -/
def WampProtocol.publish (s : State) (request : Int) (topic : PyObj)
    (args : List PyObj) (kwargs : List (String × PyObj)) :
    Except PyErr Nat × State :=
  if !topic.isStr then (.error .assertionError, s)
  else
    match s.transport with
    | Option.none => (.error .transportLost, s)
    | some tr =>
      let d := s.nextDeferred
      let s1 := { s with publish_reqs := dinsert request d s.publish_reqs,
                         nextDeferred := d + 1 }
      let msg := match dget "options" kwargs with
        | some (PyObj.pubOpts o) =>
          Msg.Publish request topic.strVal args (derase "options" kwargs) (some o)
        | _ =>
          Msg.Publish request topic.strVal args kwargs Option.none
      if tr.failing then (.error .sendFailed, s1)
      else (.ok d, { s1 with outbox := s1.outbox ++ [msg] })

/-- `WampProtocol.subscribe(handler, topic = None, options = None)`;
typing `options` as `Option SubscribeOptions` discharges the third
`assert` structurally. -/
def WampProtocol.subscribe (s : State) (request : Int) (handler : PyObj)
    (topic : PyObj) (options : Option SubscribeOptions) :
    Except PyErr Nat × State :=
  if !handler.isCallable then (.error .assertionError, s)
  else if !topic.isStr then (.error .assertionError, s)
  else
    match s.transport with
    | Option.none => (.error .transportLost, s)
    | some tr =>
      let d := s.nextDeferred
      let s1 := { s with
        subscribe_reqs := dinsert request (d, handler) s.subscribe_reqs,
        nextDeferred := d + 1 }
      let msg := match options with
        | some o => Msg.Subscribe request topic.strVal (some o)
        | Option.none => Msg.Subscribe request topic.strVal Option.none
      if tr.failing then (.error .sendFailed, s1)
      else (.ok d, { s1 with outbox := s1.outbox ++ [msg] })

/-- `WampProtocol.unsubscribe(subscription)`. -/
def WampProtocol.unsubscribe (s : State) (request : Int)
    (subscription : PyObj) : Except PyErr Nat × State :=
  if !subscription.isInt then (.error .assertionError, s)
  else
    match s.transport with
    | Option.none => (.error .transportLost, s)
    | some tr =>
      let d := s.nextDeferred
      let s1 := { s with
        unsubscribe_reqs :=
          dinsert request (d, subscription.intVal) s.unsubscribe_reqs,
        nextDeferred := d + 1 }
      let msg := Msg.Unsubscribe request subscription.intVal
      if tr.failing then (.error .sendFailed, s1)
      else (.ok d, { s1 with outbox := s1.outbox ++ [msg] })

/-! Association-list lemmas for the embedded dict operations. -/

theorem dget_append_fresh [BEq κ] [LawfulBEq κ] (k : κ) (v : α)
    (l : List (κ × α)) (h : dmem k l = false) :
    dget k (l ++ [(k, v)]) = some v := by
  induction l with
  | nil => simp [dget]
  | cons a t ih =>
    rw [dmem, List.any_cons, Bool.or_eq_false_iff] at h
    rw [List.cons_append]
    simp only [dget, List.find?_cons, h.1]
    exact ih h.2

theorem dget_map_update [BEq κ] [LawfulBEq κ] (k : κ) (v : α)
    (l : List (κ × α)) (h : dmem k l = true) :
    dget k (l.map fun p => if p.1 == k then (k, v) else p) = some v := by
  induction l with
  | nil => simp [dmem] at h
  | cons a t ih =>
    rw [dmem, List.any_cons] at h
    cases hh : (a.1 == k) with
    | true =>
      simp only [List.map_cons, hh, if_true]
      simp [dget, List.find?_cons]
    | false =>
      have ht : dmem k t = true := by
        rw [hh, Bool.false_or] at h
        exact h
      simp only [List.map_cons, hh, Bool.false_eq_true, if_false]
      simp only [dget, List.find?_cons, hh]
      exact ih ht

theorem dget_dinsert [BEq κ] [LawfulBEq κ] (k : κ) (v : α)
    (l : List (κ × α)) : dget k (dinsert k v l) = some v := by
  unfold dinsert
  cases h : dmem k l with
  | true =>
    simp only [h, if_true]
    exact dget_map_update k v l h
  | false =>
    simp only [h, Bool.false_eq_true, if_false]
    exact dget_append_fresh k v l h

theorem dmem_eq_isSome [BEq κ] (k : κ) (l : List (κ × α)) :
    dmem k l = (dget k l).isSome := by
  induction l with
  | nil => rfl
  | cons a t ih =>
    cases hh : (a.1 == k) with
    | true =>
      rw [dmem, List.any_cons, hh, Bool.true_or]
      simp only [dget, List.find?_cons, hh]
      rfl
    | false =>
      rw [dmem, List.any_cons, hh, Bool.false_or]
      simp only [dget, List.find?_cons, hh]
      exact ih

theorem dmem_dinsert [BEq κ] [LawfulBEq κ] (k : κ) (v : α)
    (l : List (κ × α)) : dmem k (dinsert k v l) = true := by
  rw [dmem_eq_isSome, dget_dinsert]
  rfl

theorem dget_derase [BEq κ] (k : κ) (l : List (κ × α)) :
    dget k (derase k l) = Option.none := by
  have h : List.find? (fun p => p.1 == k) (derase k l) = Option.none := by
    rw [List.find?_eq_none]
    intro x hx
    rw [derase, List.mem_filter] at hx
    simpa using hx.2
  simp [dget, h]

theorem dmem_derase [BEq κ] (k : κ) (l : List (κ × α)) :
    dmem k (derase k l) = false := by
  rw [dmem_eq_isSome, dget_derase]
  rfl

theorem dget_eq_none_of_dmem_false [BEq κ] (k : κ) (l : List (κ × α))
    (h : dmem k l = false) : dget k l = Option.none := by
  rw [dmem_eq_isSome] at h
  cases hc : dget k l with
  | none => rfl
  | some v =>
    rw [hc] at h
    simp at h

theorem exists_dget_of_dmem [BEq κ] (k : κ) (l : List (κ × α))
    (h : dmem k l = true) : ∃ v, dget k l = some v := by
  rw [dmem_eq_isSome] at h
  exact Option.isSome_iff_exists.mp h

/-! Concrete instances used by witnesses and counterexamples. -/

/-- A trivial class environment for concrete instances: every
constructor call raises and no class self-declares `_wampuris`. -/
def envW : ClsEnv :=
  { construct := fun _ _ _ => Option.none, wampuris := fun _ => Option.none }

/-- A state with request 1 pending in the Publish ledger (deferred 0). -/
def sPub : State :=
  { WampProtocol.init with publish_reqs := [(1, 0)] }

/-- A state with request 2 pending in the Subscribe ledger. -/
def sSub : State :=
  { WampProtocol.init with subscribe_reqs := [(2, (0, PyObj.func 0))] }

/-- A state with request 3 pending in the Unsubscribe ledger
(deferred 0, for subscription 7). -/
def sUnsub : State :=
  { WampProtocol.init with unsubscribe_reqs := [(3, (0, 7))] }

/-! Claims. -/

/-- C2: `onMessage` on a Published, Subscribed, Unsubscribed or Error
message whose requestId is not pending in the relevant ledger(s)
raises `ProtocolError` — it never returns successfully on such a
message — and the state, ledgers and session state included, is left
unmodified on that path. -/
theorem C2_unknown_request_raises (env : ClsEnv) (s : State)
    (req pub sub : Int) (uri : String) (margs : List PyObj)
    (mkwargs : List (String × PyObj)) :
    (dget req s.publish_reqs = Option.none →
      WampProtocol.onMessage env s (Msg.Published req pub) =
        (.error (.protocolError
          ("PUBLISHED received for non-pending request ID " ++ toString req)), s)) ∧
    (dget req s.subscribe_reqs = Option.none →
      WampProtocol.onMessage env s (Msg.Subscribed req sub) =
        (.error (.protocolError
          ("SUBSCRIBED received for non-pending request ID " ++ toString req)), s)) ∧
    (dget req s.unsubscribe_reqs = Option.none →
      WampProtocol.onMessage env s (Msg.Unsubscribed req) =
        (.error (.protocolError
          ("UNSUBSCRIBED received for non-pending request ID " ++ toString req)), s)) ∧
    (dget req s.publish_reqs = Option.none →
     dget req s.subscribe_reqs = Option.none →
     dget req s.unsubscribe_reqs = Option.none →
      WampProtocol.onMessage env s (Msg.Error req uri margs mkwargs) =
        (.error (.protocolError
          ("ERROR received for non-pending request ID " ++ toString req)), s)) := by
  refine ⟨fun h1 => ?_, fun h1 => ?_, fun h1 => ?_, fun h1 h2 h3 => ?_⟩ <;>
    simp [WampProtocol.onMessage, h1, *]

/-- Witness for C2: on the freshly initialized state, a `Published`
reply for request id 1 raises a `ProtocolError` and changes nothing. -/
theorem C2_unknown_request_raises_witness :
    WampProtocol.onMessage envW WampProtocol.init (Msg.Published 1 2) =
      (.error (.protocolError
        ("PUBLISHED received for non-pending request ID " ++ toString (1 : Int))),
       WampProtocol.init) :=
  (C2_unknown_request_raises envW WampProtocol.init 1 2 3 "com.example.err" [] []).1 rfl

/-- C7: after `onClose()` has cleared the transport handle, `publish`,
`subscribe` and `unsubscribe` with otherwise valid arguments each fail
immediately and synchronously with `TransportLost`, with no message
sent and no ledger entry inserted: the state is returned unchanged. -/
theorem C7_closed_transport_lost (s : State) (req : Int) (topic : String)
    (args : List PyObj) (kwargs : List (String × PyObj)) (n : Nat)
    (sub : Int) (opts : Option SubscribeOptions) :
    WampProtocol.publish (WampProtocol.onClose s) req (.str topic) args kwargs =
      (.error .transportLost, WampProtocol.onClose s) ∧
    WampProtocol.subscribe (WampProtocol.onClose s) req (.func n) (.str topic) opts =
      (.error .transportLost, WampProtocol.onClose s) ∧
    WampProtocol.unsubscribe (WampProtocol.onClose s) req (.int sub) =
      (.error .transportLost, WampProtocol.onClose s) :=
  ⟨rfl, rfl, rfl⟩

/-- C1 counterexample: with request 1 pending in the Publish ledger,
`onMessage` on the matching `Published` success reply returns
successfully, yet the ledger entry for request 1 is still present —
contrary to the claim that processing the matching success reply
removes the entry. -/
theorem C1_counterexample :
    (WampProtocol.onMessage envW sPub (Msg.Published 1 5)).1 = .ok true ∧
    dget 1 (WampProtocol.onMessage envW sPub (Msg.Published 1 5)).2.publish_reqs
      = some 0 :=
  ⟨rfl, rfl⟩

/-- C1 (amended): a pending requestId is removed from its ledger only
by the matching Error reply: processing a success reply (Published,
Subscribed, or Unsubscribed) leaves all three request ledgers
unchanged, while processing the Error reply for a requestId pending in
exactly one ledger removes that entry, so removal happens at most
once, on the error path. -/
theorem C1_amended (env : ClsEnv) (s : State) (req pub sub : Int)
    (uri : String) (margs : List PyObj) (mkwargs : List (String × PyObj)) :
    ((WampProtocol.onMessage env s (Msg.Published req pub)).2.publish_reqs
        = s.publish_reqs ∧
     (WampProtocol.onMessage env s (Msg.Published req pub)).2.subscribe_reqs
        = s.subscribe_reqs ∧
     (WampProtocol.onMessage env s (Msg.Published req pub)).2.unsubscribe_reqs
        = s.unsubscribe_reqs) ∧
    ((WampProtocol.onMessage env s (Msg.Subscribed req sub)).2.publish_reqs
        = s.publish_reqs ∧
     (WampProtocol.onMessage env s (Msg.Subscribed req sub)).2.subscribe_reqs
        = s.subscribe_reqs ∧
     (WampProtocol.onMessage env s (Msg.Subscribed req sub)).2.unsubscribe_reqs
        = s.unsubscribe_reqs) ∧
    ((WampProtocol.onMessage env s (Msg.Unsubscribed req)).2.publish_reqs
        = s.publish_reqs ∧
     (WampProtocol.onMessage env s (Msg.Unsubscribed req)).2.subscribe_reqs
        = s.subscribe_reqs ∧
     (WampProtocol.onMessage env s (Msg.Unsubscribed req)).2.unsubscribe_reqs
        = s.unsubscribe_reqs) ∧
    (dmem req s.publish_reqs = true →
      dmem req (WampProtocol.onMessage env s
        (Msg.Error req uri margs mkwargs)).2.publish_reqs = false) ∧
    (dmem req s.publish_reqs = false → dmem req s.subscribe_reqs = true →
      dmem req (WampProtocol.onMessage env s
        (Msg.Error req uri margs mkwargs)).2.subscribe_reqs = false) ∧
    (dmem req s.publish_reqs = false → dmem req s.subscribe_reqs = false →
     dmem req s.unsubscribe_reqs = true →
      dmem req (WampProtocol.onMessage env s
        (Msg.Error req uri margs mkwargs)).2.unsubscribe_reqs = false) := by
  refine ⟨?_, ?_, ?_, ?_, ?_, ?_⟩
  · cases h : dget req s.publish_reqs <;> simp [WampProtocol.onMessage, h]
  · cases h : dget req s.subscribe_reqs with
    | none => simp [WampProtocol.onMessage, h]
    | some x =>
      cases x with
      | mk d handler => simp [WampProtocol.onMessage, h]
  · cases h : dget req s.unsubscribe_reqs with
    | none => simp [WampProtocol.onMessage, h]
    | some x =>
      cases x with
      | mk d sub2 =>
        by_cases h2 : dmem sub2 s.subscriptions = true
        · simp [WampProtocol.onMessage, h, h2]
        · simp [WampProtocol.onMessage, h, h2]
  · intro h1
    obtain ⟨d, hd⟩ := exists_dget_of_dmem req s.publish_reqs h1
    simp [WampProtocol.onMessage, hd, dmem_derase]
  · intro h1 h2
    obtain ⟨x, hx⟩ := exists_dget_of_dmem req s.subscribe_reqs h2
    cases x with
    | mk d handler =>
      simp [WampProtocol.onMessage, dget_eq_none_of_dmem_false _ _ h1, hx,
        dmem_derase]
  · intro h1 h2 h3
    obtain ⟨x, hx⟩ := exists_dget_of_dmem req s.unsubscribe_reqs h3
    cases x with
    | mk d sub2 =>
      simp [WampProtocol.onMessage, dget_eq_none_of_dmem_false _ _ h1,
        dget_eq_none_of_dmem_false _ _ h2, hx, dmem_derase]

/-- Witness for the amended C1: the Error path pops the pending entry
in each of the three ledgers at concrete states. -/
theorem C1_amended_witness :
    dmem 1 (WampProtocol.onMessage envW sPub
      (Msg.Error 1 "com.example.err" [] [])).2.publish_reqs = false ∧
    dmem 2 (WampProtocol.onMessage envW sSub
      (Msg.Error 2 "com.example.err" [] [])).2.subscribe_reqs = false ∧
    dmem 3 (WampProtocol.onMessage envW sUnsub
      (Msg.Error 3 "com.example.err" [] [])).2.unsubscribe_reqs = false :=
  ⟨(C1_amended envW sPub 1 0 0 "com.example.err" [] []).2.2.2.1 rfl,
   (C1_amended envW sSub 2 0 0 "com.example.err" [] []).2.2.2.2.1 rfl rfl,
   (C1_amended envW sUnsub 3 0 0 "com.example.err" [] []).2.2.2.2.2 rfl rfl rfl⟩

/-- C9: evaluation at the failing input. With request 3 pending in the
Unsubscribe ledger, the matching `Unsubscribed` success reply resolves
the completion and leaves the entry in place, and a later Error for
the same request id is indeed not treated as a protocol violation —
the branch finds and pops the entry — but instead of calling `errback`
on the completion it raises `AttributeError`, because the source pops
the whole `(deferred, subscription)` pair without destructuring it and
calls `.errback` on the pair; no errback event is recorded. For the
Publish ledger the claimed behavior does hold: after the success
reply, the Error reply pops the entry and fires `errback` on the
already-resolved completion. -/
theorem C9_error_after_success :
    (WampProtocol.onMessage envW sUnsub (Msg.Unsubscribed 3)).1 = .ok true ∧
    dget 3 (WampProtocol.onMessage envW sUnsub
      (Msg.Unsubscribed 3)).2.unsubscribe_reqs = some (0, 7) ∧
    (WampProtocol.onMessage envW
      (WampProtocol.onMessage envW sUnsub (Msg.Unsubscribed 3)).2
      (Msg.Error 3 "com.example.err" [] [])).1 = .error .attributeError ∧
    dget 3 (WampProtocol.onMessage envW
      (WampProtocol.onMessage envW sUnsub (Msg.Unsubscribed 3)).2
      (Msg.Error 3 "com.example.err" [] [])).2.unsubscribe_reqs
      = Option.none ∧
    (WampProtocol.onMessage envW
      (WampProtocol.onMessage envW sUnsub (Msg.Unsubscribed 3)).2
      (Msg.Error 3 "com.example.err" [] [])).2.events =
      (WampProtocol.onMessage envW sUnsub (Msg.Unsubscribed 3)).2.events ∧
    dget 1 (WampProtocol.onMessage envW sPub
      (Msg.Published 1 5)).2.publish_reqs = some 0 ∧
    (WampProtocol.onMessage envW
      (WampProtocol.onMessage envW sPub (Msg.Published 1 5)).2
      (Msg.Error 1 "com.example.err" [] [])).1 = .ok true ∧
    (WampProtocol.onMessage envW
      (WampProtocol.onMessage envW sPub (Msg.Published 1 5)).2
      (Msg.Error 1 "com.example.err" [] [])).2.events =
      [.callback 0 (.int 5),
       .errback 0 (applicationError "com.example.err" [] [])] ∧
    dget 1 (WampProtocol.onMessage envW
      (WampProtocol.onMessage envW sPub (Msg.Published 1 5)).2
      (Msg.Error 1 "com.example.err" [] [])).2.publish_reqs = Option.none :=
  ⟨rfl, rfl, rfl, rfl, rfl, rfl, rfl, rfl, rfl⟩

/-! Step lemmas: closed forms of the operations on the success and
failure paths, used to chain state transitions. -/

theorem subscribe_ok (s : State) (tr : Transport) (htr : s.transport = some tr)
    (hok : tr.failing = false) (request : Int) (n : Nat) (t : String)
    (o : Option SubscribeOptions) :
    WampProtocol.subscribe s request (.func n) (.str t) o =
      (Except.ok s.nextDeferred,
       { s with
         subscribe_reqs :=
           dinsert request (s.nextDeferred, PyObj.func n) s.subscribe_reqs,
         nextDeferred := s.nextDeferred + 1,
         outbox := s.outbox ++ [Msg.Subscribe request t o] }) := by
  cases o <;> simp [WampProtocol.subscribe, htr, hok, PyObj.isCallable,
    PyObj.isStr, PyObj.strVal]

theorem unsubscribe_ok (s : State) (tr : Transport)
    (htr : s.transport = some tr) (hok : tr.failing = false)
    (request : Int) (sub : Int) :
    WampProtocol.unsubscribe s request (.int sub) =
      (Except.ok s.nextDeferred,
       { s with
         unsubscribe_reqs :=
           dinsert request (s.nextDeferred, sub) s.unsubscribe_reqs,
         nextDeferred := s.nextDeferred + 1,
         outbox := s.outbox ++ [Msg.Unsubscribe request sub] }) := by
  simp [WampProtocol.unsubscribe, htr, hok, PyObj.isInt, PyObj.intVal]

theorem publish_ok (s : State) (tr : Transport) (htr : s.transport = some tr)
    (hok : tr.failing = false) (request : Int) (t : String)
    (args : List PyObj) (kwargs : List (String × PyObj))
    (hno : dget "options" kwargs = Option.none) :
    WampProtocol.publish s request (.str t) args kwargs =
      (Except.ok s.nextDeferred,
       { s with
         publish_reqs := dinsert request s.nextDeferred s.publish_reqs,
         nextDeferred := s.nextDeferred + 1,
         outbox := s.outbox ++ [Msg.Publish request t args kwargs Option.none] }) := by
  simp [WampProtocol.publish, htr, hok, hno, PyObj.isStr, PyObj.strVal]

theorem onSubscribed_ok (env : ClsEnv) (s : State) (R S : Int) (d : Nat)
    (h : PyObj) (hd : dget R s.subscribe_reqs = some (d, h)) :
    WampProtocol.onMessage env s (Msg.Subscribed R S) =
      (.ok true,
       { s with subscriptions := dinsert S h s.subscriptions,
                events := s.events ++ [.callback d (.int S)] }) := by
  simp [WampProtocol.onMessage, hd]

theorem onUnsubscribed_present (env : ClsEnv) (s : State) (R : Int) (d : Nat)
    (sub : Int) (hd : dget R s.unsubscribe_reqs = some (d, sub))
    (hm : dmem sub s.subscriptions = true) :
    WampProtocol.onMessage env s (Msg.Unsubscribed R) =
      (.ok true,
       { s with subscriptions := derase sub s.subscriptions,
                events := s.events ++ [.callback d .none] }) := by
  simp [WampProtocol.onMessage, hd, hm]

theorem onUnsubscribed_absent (env : ClsEnv) (s : State) (R : Int) (d : Nat)
    (sub : Int) (hd : dget R s.unsubscribe_reqs = some (d, sub))
    (hm : dmem sub s.subscriptions = false) :
    WampProtocol.onMessage env s (Msg.Unsubscribed R) =
      (.ok true, { s with events := s.events ++ [.callback d .none] }) := by
  simp [WampProtocol.onMessage, hd, hm]

/-- C3: subscribe lifecycle. With an open, non-failing transport:
`subscribe(handler, topic)` registers the pending request `R` with the
supplied handler; processing `Subscribed(R, S)` installs `S` in the
subscriptions table mapped to that originally supplied handler and
resolves the completion with `S`; `unsubscribe(S)` registers pending
request `R2`; processing `Unsubscribed(R2)` removes `S` from the
subscriptions table and resolves the completion with no value; and a
further `Unsubscribed(R3)` for a pending unsubscribe of the
already-removed id `S` is a no-op on the table and not a fault. -/
theorem C3_subscribe_lifecycle (env : ClsEnv) (s : State) (tr : Transport)
    (htr : s.transport = some tr) (hok : tr.failing = false)
    (n : Nat) (t : String) (R S R2 R3 : Int) :
    dget R (WampProtocol.subscribe s R (.func n) (.str t)
        Option.none).2.subscribe_reqs = some (s.nextDeferred, .func n) ∧
    (WampProtocol.onMessage env
      (WampProtocol.subscribe s R (.func n) (.str t) Option.none).2
      (Msg.Subscribed R S)).1 = .ok true ∧
    dget S (WampProtocol.onMessage env
      (WampProtocol.subscribe s R (.func n) (.str t) Option.none).2
      (Msg.Subscribed R S)).2.subscriptions = some (.func n) ∧
    (WampProtocol.onMessage env
      (WampProtocol.subscribe s R (.func n) (.str t) Option.none).2
      (Msg.Subscribed R S)).2.events =
      s.events ++ [.callback s.nextDeferred (.int S)] ∧
    (WampProtocol.onMessage env
      (WampProtocol.unsubscribe
        (WampProtocol.onMessage env
          (WampProtocol.subscribe s R (.func n) (.str t) Option.none).2
          (Msg.Subscribed R S)).2 R2 (.int S)).2
      (Msg.Unsubscribed R2)).1 = .ok true ∧
    dget S (WampProtocol.onMessage env
      (WampProtocol.unsubscribe
        (WampProtocol.onMessage env
          (WampProtocol.subscribe s R (.func n) (.str t) Option.none).2
          (Msg.Subscribed R S)).2 R2 (.int S)).2
      (Msg.Unsubscribed R2)).2.subscriptions = Option.none ∧
    (WampProtocol.onMessage env
      (WampProtocol.unsubscribe
        (WampProtocol.onMessage env
          (WampProtocol.subscribe s R (.func n) (.str t) Option.none).2
          (Msg.Subscribed R S)).2 R2 (.int S)).2
      (Msg.Unsubscribed R2)).2.events =
      s.events ++ [.callback s.nextDeferred (.int S),
                   .callback (s.nextDeferred + 1) .none] ∧
    (WampProtocol.onMessage env
      (WampProtocol.unsubscribe
        (WampProtocol.onMessage env
          (WampProtocol.unsubscribe
            (WampProtocol.onMessage env
              (WampProtocol.subscribe s R (.func n) (.str t) Option.none).2
              (Msg.Subscribed R S)).2 R2 (.int S)).2
          (Msg.Unsubscribed R2)).2 R3 (.int S)).2
      (Msg.Unsubscribed R3)).1 = .ok true ∧
    (WampProtocol.onMessage env
      (WampProtocol.unsubscribe
        (WampProtocol.onMessage env
          (WampProtocol.unsubscribe
            (WampProtocol.onMessage env
              (WampProtocol.subscribe s R (.func n) (.str t) Option.none).2
              (Msg.Subscribed R S)).2 R2 (.int S)).2
          (Msg.Unsubscribed R2)).2 R3 (.int S)).2
      (Msg.Unsubscribed R3)).2.subscriptions =
    (WampProtocol.unsubscribe
        (WampProtocol.onMessage env
          (WampProtocol.unsubscribe
            (WampProtocol.onMessage env
              (WampProtocol.subscribe s R (.func n) (.str t) Option.none).2
              (Msg.Subscribed R S)).2 R2 (.int S)).2
          (Msg.Unsubscribed R2)).2 R3 (.int S)).2.subscriptions := by
  have e1 := subscribe_ok s tr htr hok R n t Option.none
  have hd1 : dget R (WampProtocol.subscribe s R (.func n) (.str t)
      Option.none).2.subscribe_reqs = some (s.nextDeferred, PyObj.func n) := by
    simp [e1, dget_dinsert]
  have e2 := onSubscribed_ok env _ R S _ _ hd1
  have htr2 : (WampProtocol.onMessage env
      (WampProtocol.subscribe s R (.func n) (.str t) Option.none).2
      (Msg.Subscribed R S)).2.transport = some tr := by
    simp only [e2]
    simp only [e1]
    exact htr
  have e3 := unsubscribe_ok _ tr htr2 hok R2 S
  have hd2 : dget R2 (WampProtocol.unsubscribe
      (WampProtocol.onMessage env
        (WampProtocol.subscribe s R (.func n) (.str t) Option.none).2
        (Msg.Subscribed R S)).2 R2 (.int S)).2.unsubscribe_reqs =
      some ((WampProtocol.onMessage env
        (WampProtocol.subscribe s R (.func n) (.str t) Option.none).2
        (Msg.Subscribed R S)).2.nextDeferred, S) := by
    simp [e3, dget_dinsert]
  have hm2 : dmem S (WampProtocol.unsubscribe
      (WampProtocol.onMessage env
        (WampProtocol.subscribe s R (.func n) (.str t) Option.none).2
        (Msg.Subscribed R S)).2 R2 (.int S)).2.subscriptions = true := by
    simp only [e3]
    simp only [e2]
    exact dmem_dinsert _ _ _
  have e4 := onUnsubscribed_present env _ R2 _ S hd2 hm2
  have htr4 : (WampProtocol.onMessage env
      (WampProtocol.unsubscribe
        (WampProtocol.onMessage env
          (WampProtocol.subscribe s R (.func n) (.str t) Option.none).2
          (Msg.Subscribed R S)).2 R2 (.int S)).2
      (Msg.Unsubscribed R2)).2.transport = some tr := by
    simp only [e4]
    simp only [e3]
    simp only [e2]
    simp only [e1]
    exact htr
  have e5 := unsubscribe_ok _ tr htr4 hok R3 S
  have hd3 : dget R3 (WampProtocol.unsubscribe
      (WampProtocol.onMessage env
        (WampProtocol.unsubscribe
          (WampProtocol.onMessage env
            (WampProtocol.subscribe s R (.func n) (.str t) Option.none).2
            (Msg.Subscribed R S)).2 R2 (.int S)).2
        (Msg.Unsubscribed R2)).2 R3 (.int S)).2.unsubscribe_reqs =
      some ((WampProtocol.onMessage env
        (WampProtocol.unsubscribe
          (WampProtocol.onMessage env
            (WampProtocol.subscribe s R (.func n) (.str t) Option.none).2
            (Msg.Subscribed R S)).2 R2 (.int S)).2
        (Msg.Unsubscribed R2)).2.nextDeferred, S) := by
    simp [e5, dget_dinsert]
  have hm3 : dmem S (WampProtocol.unsubscribe
      (WampProtocol.onMessage env
        (WampProtocol.unsubscribe
          (WampProtocol.onMessage env
            (WampProtocol.subscribe s R (.func n) (.str t) Option.none).2
            (Msg.Subscribed R S)).2 R2 (.int S)).2
        (Msg.Unsubscribed R2)).2 R3 (.int S)).2.subscriptions = false := by
    simp only [e5]
    simp only [e4]
    exact dmem_derase _ _
  have e6 := onUnsubscribed_absent env _ R3 _ S hd3 hm3
  refine ⟨hd1, ?_, ?_, ?_, ?_, ?_, ?_, ?_, ?_⟩
  · simp [e2]
  · simp only [e2]
    exact dget_dinsert _ _ _
  · simp only [e2]
    simp only [e1]
  · simp [e4]
  · simp only [e4]
    simp only [e3]
    simp only [e2]
    exact dget_derase _ _
  · simp only [e4]
    simp only [e3]
    simp only [e2]
    simp only [e1]
    simp
  · simp [e6]
  · simp [e6]

/-- Witness for C3 at a concrete state: a freshly opened session over
a non-failing transport. -/
def trW : Transport := { failing := false }

/-- The concrete open state used by witnesses. -/
def sW : State := WampProtocol.onOpen WampProtocol.init trW

/-- Witness for C3: the lifecycle at concrete inputs. -/
theorem C3_subscribe_lifecycle_witness :
    dget 2 (WampProtocol.onMessage envW
      (WampProtocol.subscribe sW 1 (.func 0) (.str "com.topic") Option.none).2
      (Msg.Subscribed 1 2)).2.subscriptions = some (.func 0) ∧
    dget 2 (WampProtocol.onMessage envW
      (WampProtocol.unsubscribe
        (WampProtocol.onMessage envW
          (WampProtocol.subscribe sW 1 (.func 0) (.str "com.topic")
            Option.none).2
          (Msg.Subscribed 1 2)).2 3 (.int 2)).2
      (Msg.Unsubscribed 3)).2.subscriptions = Option.none ∧
    (WampProtocol.onMessage envW
      (WampProtocol.unsubscribe
        (WampProtocol.onMessage envW
          (WampProtocol.unsubscribe
            (WampProtocol.onMessage envW
              (WampProtocol.subscribe sW 1 (.func 0) (.str "com.topic")
                Option.none).2
              (Msg.Subscribed 1 2)).2 3 (.int 2)).2
          (Msg.Unsubscribed 3)).2 4 (.int 2)).2
      (Msg.Unsubscribed 4)).1 = .ok true := by
  have h := C3_subscribe_lifecycle envW sW trW rfl rfl 0 "com.topic" 1 2 3 4
  exact ⟨h.2.2.1, h.2.2.2.2.2.1, h.2.2.2.2.2.2.2.1⟩

/-- Collapse of the truthiness branching in `_exception_from_message`:
splatting empty payloads is the same call, so the body reduces to one
constructor attempt with fallback to the generic `ApplicationError`. -/
theorem exception_from_error_eq (env : ClsEnv) (p : Peer) (uri : String)
    (margs : List PyObj) (mkwargs : List (String × PyObj)) :
    Peer.exception_from_error env p uri margs mkwargs =
      (match dget uri p.uri_to_ecls with
       | some ecls => (env.construct ecls margs mkwargs).getD
           (applicationError uri margs mkwargs)
       | Option.none => applicationError uri margs mkwargs) := by
  cases hc : dget uri p.uri_to_ecls with
  | none =>
    rcases eq_or_ne margs ([] : List PyObj) with rfl | hm <;>
      rcases eq_or_ne mkwargs ([] : List (String × PyObj)) with rfl | hk <;>
        simp_all [Peer.exception_from_error]
  | some ecls =>
    rcases eq_or_ne margs ([] : List PyObj) with rfl | hm
    · rcases eq_or_ne mkwargs ([] : List (String × PyObj)) with rfl | hk
      · cases hcc : env.construct ecls [] [] <;>
          simp_all [Peer.exception_from_error]
      · cases hcc : env.construct ecls [] mkwargs <;>
          simp_all [Peer.exception_from_error]
    · rcases eq_or_ne mkwargs ([] : List (String × PyObj)) with rfl | hk
      · cases hcc : env.construct ecls margs [] <;>
          simp_all [Peer.exception_from_error]
      · cases hcc : env.construct ecls margs mkwargs <;>
          simp_all [Peer.exception_from_error]

/-- C5: `_exception_from_message` never fails on an Error message: it
always returns an error value; when the URI is in the reverse map it
attempts construction of the mapped class from the message payload,
swallowing constructor failure; when the URI is unmapped, or the
construction failed, the result is the generic `applicationError`
carrying the raw URI and the positional/keyword payload verbatim. -/
theorem C5_exception_from_message_total (env : ClsEnv) (p : Peer) (r : Int)
    (uri : String) (margs : List PyObj) (mkwargs : List (String × PyObj)) :
    Peer.exception_from_message env p (Msg.Error r uri margs mkwargs) =
      some (match dget uri p.uri_to_ecls with
            | some ecls => (env.construct ecls margs mkwargs).getD
                (applicationError uri margs mkwargs)
            | Option.none => applicationError uri margs mkwargs) := by
  simp only [Peer.exception_from_message]
  rw [exception_from_error_eq]

/-- C4: round-trip of the error translation. For an error value `E` of
a user class registered to URI `U` via `define`, translating `E` to an
Error message and back yields `E` itself, provided `E` exposes its
positional payload and its class constructor rebuilds `E` from the
payload the wire representation preserves. -/
theorem C4_roundtrip (env : ClsEnv) (p p2 : Peer) (C : Nat) (U : String)
    (E : Exc) (r : Int) (as : List PyObj)
    (hdef : Peer.define env p (ClsId.user C) (some U) = some p2)
    (hcls : E.cls = ClsId.user C)
    (hargs : E.args = some as)
    (hctor : env.construct (ClsId.user C) as (E.kwargs.getD []) = some E) :
    (Peer.message_from_exception p2 r E).bind
      (Peer.exception_from_message env p2) = some E := by
  have hb : (E.cls == ClsId.appError) = false := by rw [hcls]; rfl
  cases hw : env.wampuris (ClsId.user C) with
  | some pats =>
    simp only [Peer.define, hw] at hdef
    exact Option.noConfusion hdef
  | none =>
    simp only [Peer.define, hw, Option.some.injEq] at hdef
    subst hdef
    cases hkw : E.kwargs with
    | some kw =>
      rw [hkw] at hctor
      simp only [Option.getD_some] at hctor
      have hmsg : Peer.message_from_exception
          { ecls_to_uri_pat := dinsert (ClsId.user C)
              [Pattern.mk U URI_TARGET_HANDLER] p.ecls_to_uri_pat,
            uri_to_ecls := dinsert U (ClsId.user C) p.uri_to_ecls } r E =
          some (Msg.Error r U as kw) := by
        simp [Peer.message_from_exception, hb, hcls, hargs, hkw, dget_dinsert]
      rw [hmsg, Option.some_bind]
      simp only [Peer.exception_from_message]
      rw [exception_from_error_eq]
      simp [dget_dinsert, hctor]
    | none =>
      rw [hkw] at hctor
      simp only [Option.getD_none] at hctor
      have hmsg : Peer.message_from_exception
          { ecls_to_uri_pat := dinsert (ClsId.user C)
              [Pattern.mk U URI_TARGET_HANDLER] p.ecls_to_uri_pat,
            uri_to_ecls := dinsert U (ClsId.user C) p.uri_to_ecls } r E =
          some (Msg.Error r U as []) := by
        simp [Peer.message_from_exception, hb, hcls, hargs, hkw, dget_dinsert]
      rw [hmsg, Option.some_bind]
      simp only [Peer.exception_from_message]
      rw [exception_from_error_eq]
      simp [dget_dinsert, hctor]

/-- A class environment whose user classes faithfully store the
payload they are constructed from. -/
def envC : ClsEnv :=
  { construct := fun c a k => some { cls := c, args := some a, kwargs := some k },
    wampuris := fun _ => Option.none }

/-- The peer map produced by `define(user 7, "com.example.custom")`. -/
def pC : Peer :=
  { ecls_to_uri_pat := [(ClsId.user 7, [Pattern.mk "com.example.custom" 0])],
    uri_to_ecls := [("com.example.custom", ClsId.user 7)] }

/-- A concrete faithful-class error value. -/
def EC : Exc :=
  { cls := ClsId.user 7, args := some [PyObj.int 1, PyObj.int 2],
    kwargs := some [] }

/-- Witness for C4: the round trip at a concrete mapped error value. -/
theorem C4_roundtrip_witness :
    (Peer.message_from_exception pC 1 EC).bind
      (Peer.exception_from_message envC pC) = some EC :=
  C4_roundtrip envC Peer.init pC 7 "com.example.custom" EC 1
    [PyObj.int 1, PyObj.int 2] rfl rfl rfl rfl

/-- C6: the Error message `_message_from_exception` builds: for an
`ApplicationError` it emits the explicit URI from the head of `args`
with the remaining payload; for a user class in the forward map, the
literal URI of the first registered pattern; for an unmapped class,
the reserved fallback URI; the message payload is whatever the
exception exposes — absent, positional-only, or both. -/
theorem C6_message_from_exception (p : Peer) (r : Int) :
    (∀ (exc : Exc) (u : String) (rest : List PyObj)
        (kw : List (String × PyObj)),
      exc.cls = ClsId.appError → exc.args = some (PyObj.str u :: rest) →
      exc.kwargs = some kw →
      Peer.message_from_exception p r exc = some (Msg.Error r u rest kw)) ∧
    (∀ (exc : Exc) (n : Nat) (pat : Pattern) (pats : List Pattern)
        (as : List PyObj) (kw : List (String × PyObj)),
      exc.cls = ClsId.user n →
      dget (ClsId.user n) p.ecls_to_uri_pat = some (pat :: pats) →
      exc.args = some as → exc.kwargs = some kw →
      Peer.message_from_exception p r exc = some (Msg.Error r pat.uri as kw)) ∧
    (∀ (exc : Exc) (n : Nat) (pat : Pattern) (pats : List Pattern)
        (as : List PyObj),
      exc.cls = ClsId.user n →
      dget (ClsId.user n) p.ecls_to_uri_pat = some (pat :: pats) →
      exc.args = some as → exc.kwargs = Option.none →
      Peer.message_from_exception p r exc = some (Msg.Error r pat.uri as [])) ∧
    (∀ (exc : Exc) (n : Nat) (pat : Pattern) (pats : List Pattern),
      exc.cls = ClsId.user n →
      dget (ClsId.user n) p.ecls_to_uri_pat = some (pat :: pats) →
      exc.args = Option.none →
      Peer.message_from_exception p r exc = some (Msg.Error r pat.uri [] [])) ∧
    (∀ (exc : Exc) (n : Nat) (as : List PyObj) (kw : List (String × PyObj)),
      exc.cls = ClsId.user n →
      dget (ClsId.user n) p.ecls_to_uri_pat = Option.none →
      exc.args = some as → exc.kwargs = some kw →
      Peer.message_from_exception p r exc =
        some (Msg.Error r "wamp.error.runtime_error" as kw)) ∧
    (∀ (exc : Exc) (n : Nat),
      exc.cls = ClsId.user n →
      dget (ClsId.user n) p.ecls_to_uri_pat = Option.none →
      exc.args = Option.none →
      Peer.message_from_exception p r exc =
        some (Msg.Error r "wamp.error.runtime_error" [] [])) := by
  refine ⟨?_, ?_, ?_, ?_, ?_, ?_⟩
  · intro exc u rest kw hcls hargs hkw
    have hb : (exc.cls == ClsId.appError) = true := by rw [hcls]; rfl
    simp [Peer.message_from_exception, hb, hargs, hkw]
  · intro exc n pat pats as kw hcls hdget hargs hkw
    have hb : (exc.cls == ClsId.appError) = false := by rw [hcls]; rfl
    simp [Peer.message_from_exception, hb, hcls, hdget, hargs, hkw]
  · intro exc n pat pats as hcls hdget hargs hkw
    have hb : (exc.cls == ClsId.appError) = false := by rw [hcls]; rfl
    simp [Peer.message_from_exception, hb, hcls, hdget, hargs, hkw]
  · intro exc n pat pats hcls hdget hargs
    have hb : (exc.cls == ClsId.appError) = false := by rw [hcls]; rfl
    simp [Peer.message_from_exception, hb, hcls, hdget, hargs]
  · intro exc n as kw hcls hdget hargs hkw
    have hb : (exc.cls == ClsId.appError) = false := by rw [hcls]; rfl
    simp [Peer.message_from_exception, hb, hcls, hdget, hargs, hkw]
  · intro exc n hcls hdget hargs
    have hb : (exc.cls == ClsId.appError) = false := by rw [hcls]; rfl
    simp [Peer.message_from_exception, hb, hcls, hdget, hargs]

/-- Witness for C6: each URI case at a concrete error value. -/
theorem C6_message_from_exception_witness :
    Peer.message_from_exception pC 1
        { cls := ClsId.appError, args := some [PyObj.str "a.b", PyObj.int 4],
          kwargs := some [] } = some (Msg.Error 1 "a.b" [PyObj.int 4] []) ∧
    Peer.message_from_exception pC 1
        { cls := ClsId.user 7, args := some [PyObj.int 3], kwargs := some [] }
      = some (Msg.Error 1 "com.example.custom" [PyObj.int 3] []) ∧
    Peer.message_from_exception pC 1
        { cls := ClsId.user 7, args := Option.none, kwargs := Option.none }
      = some (Msg.Error 1 "com.example.custom" [] []) ∧
    Peer.message_from_exception pC 1
        { cls := ClsId.user 9, args := some [PyObj.int 5], kwargs := some [] }
      = some (Msg.Error 1 "wamp.error.runtime_error" [PyObj.int 5] []) := by
  have h := C6_message_from_exception pC 1
  exact ⟨h.1 _ "a.b" [PyObj.int 4] [] rfl rfl rfl,
    h.2.1 _ 7 (Pattern.mk "com.example.custom" 0) [] [PyObj.int 3] []
      rfl rfl rfl rfl,
    h.2.2.2.1 _ 7 (Pattern.mk "com.example.custom" 0) [] rfl rfl rfl,
    h.2.2.2.2.1 _ 9 [PyObj.int 5] [] rfl rfl rfl rfl⟩

/-- C8 counterexample: with an Open transport, `publish` with the
empty-string topic does not fail at the call site: it succeeds,
registers the request in the Publish ledger and sends a Publish
message — the source only asserts that the topic is a string, never
that it is non-empty. -/
theorem C8_counterexample :
    (WampProtocol.publish sW 1 (.str "") [] []).1 = .ok 0 ∧
    dget 1 (WampProtocol.publish sW 1 (.str "") [] []).2.publish_reqs
      = some 0 ∧
    (WampProtocol.publish sW 1 (.str "") [] []).2.outbox =
      [Msg.Publish 1 "" [] [] Option.none] :=
  ⟨rfl, rfl, rfl⟩

/-- C8 (amended): `publish` rejects a non-string topic synchronously
(assertion failure) before the transport check, before any ledger
insertion and before any send; for every string topic — the empty
string included — with an Open, non-failing transport it allocates the
deferred, registers the request id in the Publish ledger and sends the
Publish message. -/
theorem C8_amended (s : State) (tr : Transport) (req : Int) (topic : PyObj)
    (t : String) (args : List PyObj) (kwargs : List (String × PyObj))
    (hns : topic.isStr = false)
    (htr : s.transport = some tr) (hok : tr.failing = false)
    (hno : dget "options" kwargs = Option.none) :
    WampProtocol.publish s req topic args kwargs =
      (.error .assertionError, s) ∧
    WampProtocol.publish s req (.str t) args kwargs =
      (Except.ok s.nextDeferred,
       { s with publish_reqs := dinsert req s.nextDeferred s.publish_reqs,
                nextDeferred := s.nextDeferred + 1,
                outbox := s.outbox ++
                  [Msg.Publish req t args kwargs Option.none] }) := by
  constructor
  · simp [WampProtocol.publish, hns]
  · exact publish_ok s tr htr hok req t args kwargs hno

/-- Witness for the amended C8 at concrete inputs. -/
theorem C8_amended_witness :
    WampProtocol.publish sW 1 (.int 5) [] [] = (.error .assertionError, sW) ∧
    WampProtocol.publish sW 1 (.str "com.example.topic") [] [] =
      (Except.ok sW.nextDeferred,
       { sW with publish_reqs := dinsert 1 sW.nextDeferred sW.publish_reqs,
                 nextDeferred := sW.nextDeferred + 1,
                 outbox := sW.outbox ++
                   [Msg.Publish 1 "com.example.topic" [] [] Option.none] }) :=
  C8_amended sW trW 1 (.int 5) "com.example.topic" [] [] rfl rfl rfl rfl

/-- C10: `publish`, `subscribe` and `unsubscribe` insert their pending
ledger entry before calling `transport.send`; when send raises, the
error propagates but the entry stays registered — no rollback — and
nothing was appended to the send trace. -/
theorem C10_insert_before_send (s : State) (tr : Transport)
    (htr : s.transport = some tr) (hfail : tr.failing = true)
    (req : Int) (t : String) (args : List PyObj)
    (kwargs : List (String × PyObj)) (n : Nat) (sub : Int)
    (hno : dget "options" kwargs = Option.none) :
    (WampProtocol.publish s req (.str t) args kwargs).1
      = .error .sendFailed ∧
    dget req (WampProtocol.publish s req (.str t) args kwargs).2.publish_reqs
      = some s.nextDeferred ∧
    (WampProtocol.publish s req (.str t) args kwargs).2.outbox = s.outbox ∧
    (WampProtocol.subscribe s req (.func n) (.str t) Option.none).1
      = .error .sendFailed ∧
    dget req (WampProtocol.subscribe s req (.func n) (.str t)
      Option.none).2.subscribe_reqs = some (s.nextDeferred, .func n) ∧
    (WampProtocol.subscribe s req (.func n) (.str t) Option.none).2.outbox
      = s.outbox ∧
    (WampProtocol.unsubscribe s req (.int sub)).1 = .error .sendFailed ∧
    dget req (WampProtocol.unsubscribe s req (.int sub)).2.unsubscribe_reqs
      = some (s.nextDeferred, sub) ∧
    (WampProtocol.unsubscribe s req (.int sub)).2.outbox = s.outbox := by
  refine ⟨?_, ?_, ?_, ?_, ?_, ?_, ?_, ?_, ?_⟩ <;>
    simp [WampProtocol.publish, WampProtocol.subscribe,
      WampProtocol.unsubscribe, htr, hfail, hno, PyObj.isStr, PyObj.isInt,
      PyObj.isCallable, PyObj.strVal, PyObj.intVal, dget_dinsert]

/-- A failing transport and an open state over it, for witnesses. -/
def trF : Transport := { failing := true }

/-- The concrete open state whose transport's send raises. -/
def sF : State := WampProtocol.onOpen WampProtocol.init trF

/-- Witness for C10: ledger entries survive a failed send. -/
theorem C10_insert_before_send_witness :
    (WampProtocol.publish sF 1 (.str "com.example.topic") [] []).1
      = .error .sendFailed ∧
    dget 1 (WampProtocol.publish sF 1
      (.str "com.example.topic") [] []).2.publish_reqs = some 0 ∧
    dget 1 (WampProtocol.subscribe sF 1 (.func 0)
      (.str "com.example.topic") Option.none).2.subscribe_reqs
      = some (0, .func 0) ∧
    dget 1 (WampProtocol.unsubscribe sF 1 (.int 7)).2.unsubscribe_reqs
      = some (0, 7) := by
  have h := C10_insert_before_send sF trF rfl rfl 1 "com.example.topic"
    [] [] 0 7 rfl
  exact ⟨h.1, h.2.1, h.2.2.2.2.1, h.2.2.2.2.2.2.2.1⟩

end Wamp
